import Mathlib

/-!
Verification development for the nornir-lab repository: a fleet automation
engine that filters an inventory of network devices, dispatches a task per
selected host with failure isolation and bounded concurrency, and aggregates
per-host results deterministically.

The repository's own scripts (src/nornir_*.py) are thin glue over the nornir
library: the task functions (`say_hello`, `configure_ntp`, `get_facts`,
`set_ntp`) and the invocation patterns (`nr.filter`, `nr.run`) live in src/,
while the engine itself (inventory filtering, dispatch, aggregation, device
backends) is the external library described by the design spec. Definitions
for the latter are modelled from the spec; the task functions are translated
directly from the scripts.
-/

namespace NornirLab

/-! ## Data model -/

/-- A managed network device. `name` is the unique inventory key; `hostname`
is the connection address attribute (the scripts filter on it, e.g.
`nr.filter(hostname="172.16.10.11")`); `extra` is the host-level attribute
mapping (e.g. the `ntp` key read by `set_ntp`). -/
structure Host where
  name : String
  hostname : String
  platform : String
  groups : List String
  extra : List (String × String)
  deriving Repr, DecidableEq

/-- A named bundle of inheritable default attributes. -/
structure Group where
  gname : String
  gextra : List (String × String)
  deriving Repr, DecidableEq

/-- The full set of hosts and groups for a run; `hosts` is kept in declared
(canonical) order. -/
structure Inventory where
  hosts : List Host
  groups : List Group
  deriving Repr, DecidableEq

/-- Error taxonomy carried in `TaskResult.error` (spec section 7). -/
inductive ErrorKind where
  | connectionError
  | authError
  | commandError
  | unsupportedOperation
  | cancelled
  | internalError
  deriving Repr, DecidableEq

/-- Outcome of running a Task against one Host. `error` is present iff not
`succeeded`; `changed` records whether remote state changed. -/
structure TaskResult (α : Type) where
  host : String
  succeeded : Bool
  output : Option α
  error : Option ErrorKind
  changed : Bool
  deriving Repr, DecidableEq

/-- Mapping from hostname to per-host result, in insertion order. -/
structure AggregatedResult (α : Type) where
  entries : List (String × TaskResult α)
  deriving Repr, DecidableEq

/-- Derived flag: did any selected host fail? -/
def AggregatedResult.anyFailed {α : Type} (r : AggregatedResult α) : Bool :=
  r.entries.any (fun e => !e.2.succeeded)

/-! ## Host filter -/

/-- Modelled from the spec: nornir's `nr.filter` (not in src/; the scripts
only call it). `filter(predicate)` selects exactly the hosts satisfying the
predicate, in the inventory's canonical declared order, without mutating the
inventory (groups are carried over unchanged). -/
def Inventory.filterHosts (I : Inventory) (P : Host → Bool) : Inventory :=
  ⟨I.hosts.filter P, I.groups⟩

/-- Attribute-equality predicate used by the scripts:
`nr.filter(hostname=a)`. -/
def hostnameEq (a : String) : Host → Bool :=
  fun h => h.hostname == a

/-! ## Group-inheritance attribute resolution -/

/-- First value for key `k` found walking the host's groups in declared
order (first group wins). -/
def firstGroupVal (I : Inventory) : List String → String → Option String
  | [], _ => none
  | g :: gs, k =>
    match (I.groups.find? (fun G => G.gname == g)).bind (fun G => G.gextra.lookup k) with
    | some v => some v
    | none => firstGroupVal I gs k

/-- Resolved attribute map lookup: host-level `extra` first, then groups in
declared order. This is what `task.host["ntp"]` reads. -/
def resolveAttr (I : Inventory) (h : Host) (k : String) : Option String :=
  match h.extra.lookup k with
  | some v => some v
  | none => firstGroupVal I h.groups k

/-! ## Task dispatch engine and result aggregation

Modelled from the spec: the dispatch engine (nornir's `nr.run`) is not in
src/; the scripts only invoke it. A task behaviour maps a host to either a
successful `(output, changed)` pair or an `ErrorKind`; the engine runs one
unit per selected host, converting any error into a failed `TaskResult` at
the unit boundary. -/

/-- One host's unit of work: the task is invoked and any failure it (or the
device backend it calls) raises is caught here and converted into a failed
`TaskResult`; a success carries the output and the `changed` flag. -/
def runUnit {α : Type} (task : Host → Except ErrorKind (α × Bool)) (h : Host) :
    TaskResult α :=
  match task h with
  | .ok (out, ch) => ⟨h.name, true, some out, none, ch⟩
  | .error k => ⟨h.name, false, none, some k, false⟩

/-- Modelled from the spec: the engine's `run` over an ordered selection.
One entry per selected host, assembled in selection order. -/
def runTask {α : Type} (task : Host → Except ErrorKind (α × Bool))
    (selection : List Host) : AggregatedResult α :=
  ⟨selection.map (fun h => (h.name, runUnit task h))⟩

/-- Pre-flight failures of the public `run_task` entry point. -/
inductive PreflightError where
  | invalidFilter
  | unknownTask
  | malformedParams
  deriving Repr, DecidableEq

/-- Modelled from the spec: the public entry point
`run_task(filter_predicate, task_ref, params, ...)`. Pre-flight validation
(filter validity, task-reference lookup in the registry, parameter
well-formedness) happens before dispatch; once pre-flight passes the engine
always returns a full aggregate, never an error. -/
def runCall {α : Type} (registry : List (String × (Host → Except ErrorKind (α × Bool))))
    (taskRef : String) (filterValid : Bool) (paramsValid : Bool)
    (selection : List Host) : Except PreflightError (AggregatedResult α) :=
  if !filterValid then .error .invalidFilter
  else if !paramsValid then .error .malformedParams
  else
    match registry.lookup taskRef with
    | none => .error .unknownTask
    | some t => .ok (runTask t selection)

/-- The error kind of a task behaviour's outcome, if any. -/
def exErr {α : Type} : Except ErrorKind α → Option ErrorKind
  | .error k => some k
  | .ok _ => none

/-- Did the task behaviour fail on this outcome? -/
def isErrB {α : Type} (e : Except ErrorKind α) : Bool :=
  (exErr e).isSome

/-! ## Completion-order independent assembly (spec sections 4.3 step 5 and 4.4)

Modelled from the spec: units complete in arbitrary real-time order; the
engine buffers completed results keyed by hostname and the aggregator
reorders them into canonical (selection) order before returning. -/

/-- The buffer of completed results as produced by the units in some
real-time completion order. -/
def completionBuffer {α : Type} (task : Host → Except ErrorKind (α × Bool))
    (order : List Host) : List (String × TaskResult α) :=
  order.map (fun h => (h.name, runUnit task h))

/-- Modelled from the spec: the result aggregator. It walks the selection in
canonical order and looks each host's completed result up in the buffer. -/
def assemble {α : Type} (selection : List Host)
    (buffer : List (String × TaskResult α)) : List (String × Option (TaskResult α)) :=
  selection.map (fun h => (h.name, buffer.lookup h.name))

/-! ## Dispatch scheduler with admission gate (spec sections 4.3 and 5)

Modelled from the spec: the counting admission gate of the dispatch engine
(not in src/). A unit is admitted into execution only while fewer than `C`
units are in flight; finished units leave the in-flight set. -/

/-- Scheduler state: how many host units are pending, in flight, done. -/
structure DispatchState where
  pending : Nat
  inFlight : Nat
  done : Nat
  deriving Repr, DecidableEq

/-- One scheduler transition: admit a pending unit (only when fewer than `C`
are in flight) or finish an in-flight unit (at any time). -/
inductive DispatchStep (C : Nat) : DispatchState → DispatchState → Prop
  | enter (s : DispatchState) : s.inFlight < C → 0 < s.pending →
      DispatchStep C s ⟨s.pending - 1, s.inFlight + 1, s.done⟩
  | finish (s : DispatchState) : 0 < s.inFlight →
      DispatchStep C s ⟨s.pending, s.inFlight - 1, s.done + 1⟩

/-- Reachability: zero or more scheduler transitions. -/
inductive DispatchReach (C : Nat) : DispatchState → DispatchState → Prop
  | refl (s : DispatchState) : DispatchReach C s s
  | tail {s t u : DispatchState} : DispatchReach C s t → DispatchStep C t u →
      DispatchReach C s u

/-- Initial scheduler state for a run over `N` selected hosts. -/
def initDispatch (N : Nat) : DispatchState :=
  ⟨N, 0, 0⟩

/-! ## Config backend (spec section 4.2)

Modelled from the spec: `send_config(host, commands)` of a Config Backend
(netmiko_send_config is an external library task). Commands are submitted
strictly in order; the first command the device rejects stops the batch and
the whole batch is reported as not applied, with diagnostic detail. -/

/-- Submit commands in order against a device (`dev c` is the device's
response to command `c`). Returns the commands actually submitted and the
diagnostic of the first failure, if any. -/
def submitCmds (dev : String → Except String String) :
    List String → (List String × Option String)
  | [] => ([], none)
  | c :: rest =>
    match dev c with
    | .ok _ =>
      let r := submitCmds dev rest
      (c :: r.1, r.2)
    | .error e => ([c], some e)

/-- Result contract of `send_config`. -/
structure ConfigResult where
  applied : Bool
  changed : Bool
  submitted : List String
  diagnostic : Option String
  deriving Repr, DecidableEq

/-- Modelled from the spec: a Config Backend's `send_config`. The batch is
reported applied only when every command succeeded; any mid-sequence failure
fails the whole batch with diagnostic detail. -/
def sendConfig (dev : String → Except String String) (cmds : List String) :
    ConfigResult :=
  let r := submitCmds dev cmds
  ⟨r.2.isNone, r.2.isNone && !cmds.isEmpty, r.1, r.2⟩

/-! ## Fact backend (spec section 4.2) and the fact-retrieval task -/

/-- Collect the requested getters from a backend's observation function; an
unsupported getter is a request-validation error. -/
def collectGetters {α : Type} (observe : String → Option α) :
    List String → Except ErrorKind (List (String × α))
  | [] => .ok []
  | g :: gs =>
    match observe g with
    | none => .error .unsupportedOperation
    | some d => (collectGetters observe gs).map (fun rest => (g, d) :: rest)

/-- A fact-capable device: an internal state and a pure observation of facts
from that state. -/
structure FactDevice (α : Type) where
  devState : Nat
  observe : Nat → String → Option α
  deriving Inhabited

/-- Modelled from the spec: the Fact Backend's `get_facts` operation
(napalm_get is an external library task). Read-only: the device is returned
unchanged; the output pairs each requested getter with its data and the
`changed` flag is false. -/
def napalmGet {α : Type} (d : FactDevice α) (getters : List String) :
    Except ErrorKind ((List (String × α)) × Bool) × FactDevice α :=
  ((collectGetters (d.observe d.devState) getters).map (fun out => (out, false)), d)

/-- Translated from src/nornir_napalm_facts.py: `get_facts(task)` runs
`napalm_get` with `getters=["facts"]` against the host's device. -/
def get_facts {α : Type} (device : Host → FactDevice α) :
    Host → Except ErrorKind ((List (String × α)) × Bool) :=
  fun h => (napalmGet (device h) ["facts"]).1

/-! ## Repository task functions (translated from src/) -/

/-- Observable behaviour of a plain script task: the value the Python
function returns (if any) and the lines it prints. -/
structure TaskEffect where
  retVal : Option String
  printed : List String
  deriving Repr, DecidableEq

/-- Rendering of a host's group list, as Python would render
`task.host.groups` inside the f-string of src/nornir_filter.py. -/
def renderGroups (gs : List String) : String :=
  String.intercalate ", " gs

/-- Translated from src/nornir_filter.py: `say_hello` returns an f-string
over the host and prints nothing; the host is returned unchanged (tasks are
read-only on hosts). -/
def sayHelloFilter (h : Host) : Host × TaskEffect :=
  (h, ⟨some ("Hello, " ++ h.name ++ " - " ++ renderGroups h.groups ++ " - " ++ h.hostname), []⟩)

/-- Translated from src/nornir_hello.py: `say_hello` prints a greeting and
returns nothing (print-only, no return value). -/
def sayHelloHello (h : Host) : Host × TaskEffect :=
  (h, ⟨none, ["Hello, Nornir"]⟩)

/-- Translated from src/nornir_test2.py: `say_hello` returns a constant
string. -/
def sayHelloTest2 (h : Host) : Host × TaskEffect :=
  (h, ⟨some "Hello, Nornir", []⟩)

/-- The plain (non-backend) task functions defined by the repository's
scripts. -/
def repoSimpleTasks : List (Host → Host × TaskEffect) :=
  [sayHelloFilter, sayHelloHello, sayHelloTest2]

/-- The NTP configuration payload of src/nornir_napalm_config.py. -/
def ntpConfigPayload : String :=
  "\n    ntp server 1.1.1.1\n    "

/-- Translated from src/nornir_napalm_config.py: `configure_ntp(task)` runs
`napalm_configure` with the fixed NTP payload; the backend may fail, and its
outcome is the task's outcome. -/
def configure_ntp (backend : Host → String → Except ErrorKind (String × Bool))
    (h : Host) : Except ErrorKind (String × Bool) :=
  backend h ntpConfigPayload

/-- Translated from src/nornir_netmiko_data.py: `set_ntp(task)` reads
`task.host["ntp"]` from the host's resolved attribute map — a missing key
raises (KeyError), caught at the unit boundary as an internal error — and
sends the single config command `ntp server <value>`. The output records the
command list handed to `netmiko_send_config`. -/
def set_ntp (I : Inventory) (h : Host) : Except ErrorKind (List String × Bool) :=
  match resolveAttr I h "ntp" with
  | none => .error .internalError
  | some v => .ok (["ntp server " ++ v], true)

/-! ## Sample inventory mirroring the lab topology used by the scripts -/

/-- A host like the one selected by src/nornir_filter.py. -/
def hostR1 : Host := ⟨"R1", "172.16.10.11", "cisco_ios", ["cisco"], []⟩

/-- A host like the one selected by src/nornir_netmiko_data.py, carrying an
`ntp` attribute. -/
def hostR2 : Host := ⟨"R2", "172.16.10.12", "cisco_ios", ["cisco"], [("ntp", "1.1.1.1")]⟩

/-- A third host with no groups and no extra attributes. -/
def hostR3 : Host := ⟨"R3", "172.16.10.13", "cisco_ios", [], []⟩

/-- A small concrete inventory for witnesses. -/
def sampleInventory : Inventory := ⟨[hostR1, hostR2, hostR3], [⟨"cisco", []⟩]⟩

/-- A concrete task behaviour: succeeds on R1, connection failure elsewhere. -/
def sampleTask : Host → Except ErrorKind (String × Bool) :=
  fun h => if h.name == "R1" then .ok ("facts-output", false) else .error .connectionError

/-- A concrete napalm-configure style backend for witnesses: applies on R1,
unreachable elsewhere. -/
def sampleNapalmBackend : Host → String → Except ErrorKind (String × Bool) :=
  fun h _ => if h.name == "R1" then .ok ("config applied", true) else .error .connectionError

/-- A concrete fact device for witnesses: serves only the `facts` getter. -/
def sampleFactDevice : Host → FactDevice String :=
  fun _ => ⟨0, fun _ g => if g == "facts" then some "facts-data" else none⟩

/-- A concrete config-session device for witnesses: rejects one specific
command and accepts the rest. -/
def sampleConfigDevice : String → Except String String :=
  fun c => if c == "bad cmd" then .error "rejected by device" else .ok "ok"

/-! ## Helper lemmas -/

/-- Per-host unit result characterisation: the hostname is copied, success
mirrors the task outcome, and the error kind is present iff the unit
failed. -/
theorem runUnit_spec {α : Type} (t : Host → Except ErrorKind (α × Bool)) (x : Host) :
    (runUnit t x).host = x.name
    ∧ (runUnit t x).succeeded = !isErrB (t x)
    ∧ (runUnit t x).error = exErr (t x)
    ∧ ((runUnit t x).succeeded = true ↔ (runUnit t x).error = none) := by
  cases ht : t x with
  | ok v => cases v with
    | mk o c => simp [runUnit, isErrB, exErr, ht]
  | error k => simp [runUnit, isErrB, exErr, ht]

/-- In an association list built by tagging each host with its name, lookup
by the name of a member host returns that host's tag, provided names are
distinct. -/
theorem lookup_map_name {α : Type} (f : Host → α) (l : List Host) (x : Host)
    (hx : x ∈ l) (hnd : (l.map Host.name).Nodup) :
    (l.map (fun h => (h.name, f h))).lookup x.name = some (f x) := by
  induction l with
  | nil => cases hx
  | cons y ys ih =>
    rcases List.mem_cons.mp hx with hxy | hxys
    · subst hxy
      simp [List.lookup]
    · rw [List.map_cons] at hnd
      have hy : y.name ∉ ys.map Host.name := (List.nodup_cons.mp hnd).1
      have hne : (x.name == y.name) = false := by
        apply beq_false_of_ne
        intro heq
        exact hy (heq ▸ List.mem_map_of_mem Host.name hxys)
      have htl : (ys.map Host.name).Nodup := (List.nodup_cons.mp hnd).2
      simp only [List.map_cons, List.lookup, hne]
      exact ih hxys htl

/-- The first failing command determines `submitCmds`' diagnostic: it is
absent exactly when every command succeeds. -/
theorem submitCmds_snd_none (dev : String → Except String String) (cmds : List String) :
    ((submitCmds dev cmds).2 = none ↔ ∀ c ∈ cmds, (dev c).isOk = true) := by
  induction cmds with
  | nil => simp [submitCmds]
  | cons c rest ih =>
    cases hd : dev c with
    | ok o =>
      simp only [submitCmds, hd]
      constructor
      · intro hn c' hc'
        rcases List.mem_cons.mp hc' with h1 | h2
        · subst h1; simp [hd, Except.isOk, Except.toBool]
        · exact (ih.mp hn) c' h2
      · intro hall
        exact ih.mpr (fun c' hc' => hall c' (List.mem_cons_of_mem _ hc'))
    | error e =>
      simp only [submitCmds, hd]
      constructor
      · intro hn; cases hn
      · intro hall
        have := hall c (List.mem_cons_self _ _)
        rw [hd] at this
        cases this

/-- The submitted commands form an in-order prefix of the requested batch. -/
theorem submitCmds_fst_append (dev : String → Except String String) (cmds : List String) :
    ∃ t, (submitCmds dev cmds).1 ++ t = cmds := by
  induction cmds with
  | nil => exact ⟨[], rfl⟩
  | cons c rest ih =>
    cases hd : dev c with
    | ok o =>
      obtain ⟨t, ht⟩ := ih
      exact ⟨t, by simp [submitCmds, hd, ht]⟩
    | error e => exact ⟨rest, by simp [submitCmds, hd]⟩

/-- Assembly from any completion buffer that is a permutation of the
selection reproduces the canonical per-host results. -/
theorem assemble_perm {α : Type} (t : Host → Except ErrorKind (α × Bool))
    (sel order : List Host) (hp : order.Perm sel)
    (hnd : (sel.map Host.name).Nodup) :
    assemble sel (completionBuffer t order)
      = sel.map (fun h => (h.name, some (runUnit t h))) := by
  apply List.map_congr_left
  intro h hh
  have hmem : h ∈ order := hp.mem_iff.mpr hh
  have hndo : (order.map Host.name).Nodup :=
    ((hp.map Host.name).nodup_iff).mpr hnd
  simp only [completionBuffer]
  rw [lookup_map_name (runUnit t) order h hmem hndo]

/-- The aggregate's failure flag reflects whether some selected host's task
behaviour failed. -/
theorem anyFailed_eq {α : Type} (t : Host → Except ErrorKind (α × Bool))
    (sel : List Host) :
    (runTask t sel).anyFailed = sel.any (fun x => isErrB (t x)) := by
  induction sel with
  | nil => rfl
  | cons y ys ih =>
    have hy : (!(runUnit t y).succeeded) = isErrB (t y) := by
      cases ht : t y with
      | ok v => simp [runUnit, isErrB, exErr, ht]
      | error k => simp [runUnit, isErrB, exErr, ht]
    simp only [runTask, AggregatedResult.anyFailed, List.map_cons, List.any_cons] at ih ⊢
    rw [hy, ih]

/-! ## Claim theorems -/

/-- C1: for any task behaviour over N selected hosts, `run_task` returns an
aggregate with exactly N entries, one per selected host in selection order;
each failing host is marked failed and carries the task's error kind (error
present iff not succeeded), each succeeding host is marked succeeded with no
error; `any_failed` is true exactly when the number M of failing hosts is
positive; and an empty selection yields an empty aggregate with
`any_failed = false`. -/
theorem run_task_aggregate_complete {α : Type}
    (t : Host → Except ErrorKind (α × Bool)) (sel : List Host) :
    (runTask t sel).entries.length = sel.length
    ∧ (runTask t sel).entries = sel.map (fun h => (h.name, runUnit t h))
    ∧ (∀ x : Host,
        (runUnit t x).host = x.name
        ∧ (runUnit t x).succeeded = !isErrB (t x)
        ∧ (runUnit t x).error = exErr (t x)
        ∧ ((runUnit t x).succeeded = true ↔ (runUnit t x).error = none))
    ∧ (runTask t sel).anyFailed = decide (0 < sel.countP (fun x => isErrB (t x)))
    ∧ (runTask t []).entries = []
    ∧ (runTask t []).anyFailed = false := by
  refine ⟨by simp [runTask], rfl, runUnit_spec t, ?_, rfl, rfl⟩
  rw [anyFailed_eq t sel, Bool.eq_iff_iff, decide_eq_true_eq]
  rw [List.any_eq_true, List.countP_pos_iff]

/-- C1 witness at a concrete two-host selection where one host fails. -/
theorem run_task_aggregate_complete_witness :
    (runTask sampleTask [hostR1, hostR3]).entries.length = 2
    ∧ (runTask sampleTask [hostR1, hostR3]).anyFailed
        = decide (0 < [hostR1, hostR3].countP (fun x => isErrB (sampleTask x))) :=
  ⟨(run_task_aggregate_complete sampleTask [hostR1, hostR3]).1,
   (run_task_aggregate_complete sampleTask [hostR1, hostR3]).2.2.2.1⟩

/-- C2: per-host errors are contained at the unit boundary: with a valid
pre-flight (valid filter, known task reference, well-formed parameters) the
`run` call returns a full aggregate for any task behaviour, never an error;
the result of each host's unit depends only on that host's own behaviour
(changing one host's behaviour leaves sibling units' results unchanged); and
the call errors exactly on pre-flight failures, independent of host
outcomes. -/
theorem run_call_preflight_only {α : Type}
    (registry : List (String × (Host → Except ErrorKind (α × Bool))))
    (taskRef : String) (t : Host → Except ErrorKind (α × Bool)) (sel : List Host)
    (hreg : registry.lookup taskRef = some t) :
    runCall registry taskRef true true sel = .ok (runTask t sel)
    ∧ (runTask t sel).entries.map Prod.fst = sel.map Host.name
    ∧ (∀ (t₁ t₂ : Host → Except ErrorKind (α × Bool)) (h : Host),
        (∀ x : Host, x ≠ h → t₁ x = t₂ x) →
        ∀ x : Host, x ≠ h → runUnit t₁ x = runUnit t₂ x)
    ∧ (∀ fv pv : Bool,
        (∃ e, runCall registry taskRef fv pv sel = .error e)
          ↔ (fv = false ∨ pv = false))
    ∧ (∀ registry₂ : List (String × (Host → Except ErrorKind (α × Bool))),
        registry₂.lookup taskRef = none →
        runCall registry₂ taskRef true true sel = .error .unknownTask) := by
  refine ⟨by simp [runCall, hreg], by simp [runTask], ?_, ?_, ?_⟩
  · intro t₁ t₂ h hagree x hx
    simp only [runUnit, hagree x hx]
  · intro fv pv
    cases fv <;> cases pv <;> simp [runCall, hreg]
  · intro registry₂ h₂
    simp [runCall, h₂]

/-- C2 witness: the `configure_ntp` task of src/nornir_napalm_config.py run
through a registry, against a backend that fails on one of the hosts; the
call still returns a full aggregate. -/
theorem run_call_preflight_only_witness :
    runCall [("configure_ntp", configure_ntp sampleNapalmBackend)]
        "configure_ntp" true true [hostR1, hostR3]
      = .ok (runTask (configure_ntp sampleNapalmBackend) [hostR1, hostR3]) :=
  (run_call_preflight_only [("configure_ntp", configure_ntp sampleNapalmBackend)]
    "configure_ntp" (configure_ntp sampleNapalmBackend) [hostR1, hostR3] rfl).1

/-- C3: report ordering is deterministic: for any two completion orders of
the same filtered selection (any permutations of it), assembling the buffered
results yields identical aggregates, equal to the canonical selection-order
assembly. -/
theorem aggregate_order_deterministic {α : Type}
    (t : Host → Except ErrorKind (α × Bool)) (sel order₁ order₂ : List Host)
    (h₁ : order₁.Perm sel) (h₂ : order₂.Perm sel)
    (hnd : (sel.map Host.name).Nodup) :
    assemble sel (completionBuffer t order₁) = assemble sel (completionBuffer t order₂)
    ∧ assemble sel (completionBuffer t order₁)
        = sel.map (fun h => (h.name, some (runUnit t h))) := by
  have e1 := assemble_perm t sel order₁ h₁ hnd
  have e2 := assemble_perm t sel order₂ h₂ hnd
  exact ⟨e1.trans e2.symm, e1⟩

/-- C3 witness: two hosts completing in opposite orders produce the same
assembled report. -/
theorem aggregate_order_deterministic_witness :
    assemble [hostR1, hostR3] (completionBuffer sampleTask [hostR3, hostR1])
      = assemble [hostR1, hostR3] (completionBuffer sampleTask [hostR1, hostR3]) :=
  (aggregate_order_deterministic sampleTask [hostR1, hostR3] [hostR3, hostR1]
    [hostR1, hostR3] (List.Perm.swap hostR1 hostR3 []) (List.Perm.refl _)
    (by decide)).1

/-- C4: `filter(P)` returns exactly the hosts of the inventory satisfying
`P`, in the inventory's canonical declared order (the selection is an
in-order sublist of the declared hosts), and filtering does not mutate the
inventory (groups carried over unchanged; the operation is a pure
selection). -/
theorem filter_exact_ordered_pure (P : Host → Bool) (I : Inventory) :
    (I.filterHosts P).hosts = I.hosts.filter P
    ∧ (∀ h : Host, h ∈ (I.filterHosts P).hosts ↔ h ∈ I.hosts ∧ P h = true)
    ∧ List.Sublist (I.filterHosts P).hosts I.hosts
    ∧ (I.filterHosts P).groups = I.groups := by
  refine ⟨rfl, ?_, List.filter_sublist I.hosts, rfl⟩
  intro h
  simp [Inventory.filterHosts, List.mem_filter]

/-- C5: filtering is idempotent — filtering a filtered inventory by the same
predicate is a no-op — and chained filters compose by conjunction: filtering
by `P` then `Q` selects exactly the hosts satisfying `P AND Q`. -/
theorem filter_idempotent_conjunctive (P Q : Host → Bool) (I : Inventory) :
    (I.filterHosts P).filterHosts P = I.filterHosts P
    ∧ ((I.filterHosts P).filterHosts Q).hosts = I.hosts.filter (fun h => P h && Q h)
    ∧ (∀ h : Host, h ∈ ((I.filterHosts P).filterHosts Q).hosts
        ↔ h ∈ I.hosts ∧ P h = true ∧ Q h = true) := by
  refine ⟨?_, ?_, ?_⟩
  · have hh : (I.hosts.filter P).filter P = I.hosts.filter P := by
      rw [List.filter_filter]
      exact List.filter_congr (fun a _ => Bool.and_self (P a))
    show (⟨(I.hosts.filter P).filter P, I.groups⟩ : Inventory) = ⟨I.hosts.filter P, I.groups⟩
    rw [hh]
  · show (I.hosts.filter P).filter Q = _
    rw [List.filter_filter]
    exact List.filter_congr (fun a _ => Bool.and_comm (Q a) (P a))
  · intro h
    simp only [Inventory.filterHosts, List.mem_filter]
    tauto

/-- C6: with concurrency limit `C`, every scheduler state reachable from the
initial state of a run over `N` hosts has at most `C` units in flight: the
admission gate admits a unit only while fewer than `C` are in flight, so the
bound is invariant. -/
theorem dispatch_concurrency_bounded (C N : Nat) (s : DispatchState)
    (hr : DispatchReach C (initDispatch N) s) : s.inFlight ≤ C := by
  have key : ∀ a b : DispatchState, DispatchReach C a b →
      a.inFlight ≤ C → b.inFlight ≤ C := by
    intro a b hab
    induction hab with
    | refl => exact id
    | tail hr hstep ih =>
      intro ha
      have ht := ih ha
      cases hstep with
      | enter hlt hp => exact hlt
      | finish hpos => exact Nat.le_trans (Nat.sub_le _ _) ht
  exact key _ _ hr (Nat.zero_le C)

/-- C6 witness: with limit 2 and 3 pending hosts, the state after admitting
one unit is reachable and respects the bound. -/
theorem dispatch_concurrency_bounded_witness :
    (⟨2, 1, 0⟩ : DispatchState).inFlight ≤ 2 :=
  dispatch_concurrency_bounded 2 3 ⟨2, 1, 0⟩
    (DispatchReach.tail (DispatchReach.refl (initDispatch 3))
      (DispatchStep.enter (initDispatch 3) (by decide) (by decide)))

/-- C7: `send_config` submits the commands strictly in order (the submitted
commands form an in-order prefix of the batch); the batch is reported
applied exactly when every command succeeded — a partially applied batch is
never reported as applied — and on failure the diagnostic detail is present
exactly when the batch was not applied. -/
theorem send_config_atomic (dev : String → Except String String)
    (cmds : List String) :
    (∃ tl, (sendConfig dev cmds).submitted ++ tl = cmds)
    ∧ ((sendConfig dev cmds).applied = true ↔ ∀ c ∈ cmds, (dev c).isOk = true)
    ∧ ((sendConfig dev cmds).applied = false
        ↔ (sendConfig dev cmds).diagnostic.isSome = true) := by
  refine ⟨submitCmds_fst_append dev cmds, ?_, ?_⟩
  · show (submitCmds dev cmds).2.isNone = true ↔ _
    rw [Option.isNone_iff_eq_none]
    exact submitCmds_snd_none dev cmds
  · cases ho : (submitCmds dev cmds).2 <;> simp [sendConfig, ho]

/-- C7 witness: a batch whose middle command the device rejects is reported
not applied, with an in-order submitted prefix. -/
theorem send_config_atomic_witness :
    (∃ tl, (sendConfig sampleConfigDevice ["ntp server 1.1.1.1", "bad cmd", "end"]).submitted
        ++ tl = ["ntp server 1.1.1.1", "bad cmd", "end"])
    ∧ (sendConfig sampleConfigDevice ["ntp server 1.1.1.1", "bad cmd", "end"]).applied = false :=
  ⟨(send_config_atomic sampleConfigDevice ["ntp server 1.1.1.1", "bad cmd", "end"]).1,
   (send_config_atomic sampleConfigDevice
      ["ntp server 1.1.1.1", "bad cmd", "end"]).2.2.mpr (by decide)⟩

/-- C8: a host whose fact device serves a fixed structure for the `facts`
getter yields, through the fact-retrieval task of
src/nornir_napalm_facts.py, a successful TaskResult whose output is that
structure under the `facts` key with `changed = false`; the fact query is
read-only — the device comes back unchanged. -/
theorem get_facts_roundtrip {α : Type} (device : Host → FactDevice α)
    (h : Host) (D : α)
    (hobs : (device h).observe (device h).devState "facts" = some D) :
    runUnit (get_facts device) h = ⟨h.name, true, some [("facts", D)], none, false⟩
    ∧ (napalmGet (device h) ["facts"]).2 = device h := by
  refine ⟨?_, rfl⟩
  simp [runUnit, get_facts, napalmGet, collectGetters, hobs, Except.map]

/-- C8 witness at a concrete fact device serving only the `facts` getter. -/
theorem get_facts_roundtrip_witness :
    runUnit (get_facts sampleFactDevice) hostR1
      = ⟨"R1", true, some [("facts", "facts-data")], none, false⟩ :=
  (get_facts_roundtrip sampleFactDevice hostR1 "facts-data" rfl).1

/-- C9 counterexample: not every repository task returns a value —
`say_hello` of src/nornir_hello.py is print-only and returns none, so the
claim that there is no side-effecting print-only, no-return mode fails on
the code. -/
theorem tasks_return_value_counterexample :
    ¬ (∀ t ∈ repoSimpleTasks, ∀ h : Host, ((t h).2.retVal).isSome = true) := by
  intro hall
  have := hall sayHelloHello (by simp [repoSimpleTasks]) hostR1
  simp [sayHelloHello] at this

/-- C9 amended: repository tasks are read-only on their Host (no task
mutates the host or, through it, the inventory), and the `say_hello` tasks
of src/nornir_filter.py and src/nornir_test2.py return a value; but
src/nornir_hello.py's `say_hello` is print-only, returning no value, so a
side-effecting no-return mode exists in the repository. -/
theorem tasks_readonly_and_return_modes (h : Host) :
    (∀ t ∈ repoSimpleTasks, (t h).1 = h)
    ∧ ((sayHelloFilter h).2.retVal).isSome = true
    ∧ ((sayHelloTest2 h).2.retVal).isSome = true
    ∧ (sayHelloHello h).2.retVal = none
    ∧ (sayHelloHello h).2.printed = ["Hello, Nornir"] := by
  refine ⟨?_, rfl, rfl, rfl, rfl⟩
  intro t ht
  simp [repoSimpleTasks] at ht
  rcases ht with rfl | rfl | rfl
  · rfl
  · rfl
  · rfl

/-- C9 amended witness at a concrete host. -/
theorem tasks_readonly_and_return_modes_witness :
    (sayHelloHello hostR1).1 = hostR1 ∧ (sayHelloHello hostR1).2.retVal = none :=
  ⟨(tasks_readonly_and_return_modes hostR1).1 sayHelloHello
      (by simp [repoSimpleTasks]),
   (tasks_readonly_and_return_modes hostR1).2.2.2.1⟩

/-- C10: if a host's resolved attribute map (host `extra` first, then groups
in declared order) has no `ntp` key, the `set_ntp` task of
src/nornir_netmiko_data.py fails for that host alone — the key-lookup error
is caught at the unit boundary as a failed TaskResult — while every entry of
the aggregate is a function of its own host only (so other hosts'
results are unaffected); if the key resolves to `v`, exactly one config
command `ntp server v` is sent. -/
theorem set_ntp_missing_key_isolated (I : Inventory) (h : Host) (v : String)
    (sel : List Host) :
    (resolveAttr I h "ntp" = none →
      runUnit (set_ntp I) h = ⟨h.name, false, none, some .internalError, false⟩)
    ∧ (resolveAttr I h "ntp" = some v →
      runUnit (set_ntp I) h = ⟨h.name, true, some ["ntp server " ++ v], none, true⟩)
    ∧ (runTask (set_ntp I) sel).entries
        = sel.map (fun x => (x.name, runUnit (set_ntp I) x)) := by
  refine ⟨?_, ?_, rfl⟩
  · intro hn
    simp [runUnit, set_ntp, hn]
  · intro hv
    simp [runUnit, set_ntp, hv]

/-- C10 witness: in the sample inventory, the host without an `ntp`
attribute fails with an internal error while the host carrying
`ntp = 1.1.1.1` gets exactly the single command `ntp server 1.1.1.1`. -/
theorem set_ntp_missing_key_isolated_witness :
    runUnit (set_ntp sampleInventory) hostR1
      = ⟨"R1", false, none, some .internalError, false⟩
    ∧ runUnit (set_ntp sampleInventory) hostR2
      = ⟨"R2", true, some ["ntp server 1.1.1.1"], none, true⟩ :=
  ⟨(set_ntp_missing_key_isolated sampleInventory hostR1 "" []).1 (by decide),
   (set_ntp_missing_key_isolated sampleInventory hostR2 "1.1.1.1" []).2.1 (by decide)⟩

end NornirLab
